import Mathlib

/-!
Shallow embedding of the baseline/trend decision engine:
`src/src/baselineCalculator.ts` (window selection, per-metric median baseline,
tolerance-band classification) and `src/src/decisionEngine.ts` (two-day trend
rule and phase decision), with the data model of `src/unnamed/part_000` and
the mock data of `src/unnamed/part_001`.  Numeric values (TypeScript numbers)
are modelled as rationals ℚ; `number | null` becomes `Option ℚ`; a thrown
`Error` becomes `Except String`.
-/

namespace P360

/-- The three tracked metrics (the keys `hrv`, `sleep`, `load`). -/
inductive Metric : Type
  | hrv
  | sleep
  | load
  deriving DecidableEq

/-- `DailyMetrics` from `src/unnamed/part_000`: one calendar day's readings,
each metric `number | null`. -/
structure DailyMetrics : Type where
  date : String
  hrv : Option ℚ
  sleep : Option ℚ
  load : Option ℚ
  deriving DecidableEq

instance : Inhabited DailyMetrics := ⟨⟨"", none, none, none⟩⟩

/-- Field access of a `DailyMetrics` record by metric key. -/
def DailyMetrics.get (d : DailyMetrics) : Metric → Option ℚ
  | .hrv => d.hrv
  | .sleep => d.sleep
  | .load => d.load

/-- `MetricComparison` from `src/unnamed/part_000`. -/
inductive MetricComparison : Type
  | lower
  | within
  | higher
  deriving DecidableEq

/-- `DecisionPhase` from `src/unnamed/part_000`. -/
inductive DecisionPhase : Type
  | OBSERVE
  | CONSIDER_ADJUSTMENT
  deriving DecidableEq

/-- `ComparisonResult` from `src/unnamed/part_000`: one verdict-or-null per
metric. -/
structure ComparisonResult : Type where
  hrv : Option MetricComparison
  sleep : Option MetricComparison
  load : Option MetricComparison
  deriving DecidableEq

/-- Field access of a `ComparisonResult` by metric key. -/
def ComparisonResult.get (c : ComparisonResult) : Metric → Option MetricComparison
  | .hrv => c.hrv
  | .sleep => c.sleep
  | .load => c.load

/-- `Baseline` from `src/unnamed/part_000`: one reference value per metric,
always present. -/
structure Baseline : Type where
  hrv : ℚ
  sleep : ℚ
  load : ℚ
  deriving DecidableEq

/-- Field access of a `Baseline` by metric key. -/
def Baseline.get (b : Baseline) : Metric → ℚ
  | .hrv => b.hrv
  | .sleep => b.sleep
  | .load => b.load

/-- JavaScript `array.slice(-n)` for `n > 0`: the trailing `min n length`
elements of the list. -/
def takeLast (n : Nat) (l : List α) : List α :=
  l.drop (l.length - n)

/-- Insert into an ascending-sorted list, keeping it sorted. -/
def insertSorted (a : ℚ) : List ℚ → List ℚ
  | [] => [a]
  | b :: l => if a ≤ b then a :: b :: l else b :: insertSorted a l

/-- Ascending numeric sort, the behaviour of the JavaScript
`array.sort((a, b) => a - b)` calls in `src/src/baselineCalculator.ts`
(insertion sort; on ℚ any correct sort produces the same list). -/
def sortAsc : List ℚ → List ℚ
  | [] => []
  | a :: l => insertSorted a (sortAsc l)

/-- `src/src/baselineCalculator.ts` lines 19-30: project out one metric,
drop the `null` readings, and sort ascending. -/
def presentSorted (values : List DailyMetrics) (m : Metric) : List ℚ :=
  sortAsc ((values.map (fun d => d.get m)).filterMap id)

/-- The inner `median` helper of `calculateBaseline`
(`src/src/baselineCalculator.ts` lines 32-40): `null` on an empty list,
the middle element for an odd length, the mean of the two central elements
for an even length (the list it is applied to is already sorted). -/
def median (arr : List ℚ) : Option ℚ :=
  if arr.length = 0 then
    none
  else
    let mid := arr.length / 2
    if arr.length % 2 = 0 then
      some ((arr.getD (mid - 1) 0 + arr.getD mid 0) / 2)
    else
      some (arr.getD mid 0)

/-- `src/src/baselineCalculator.ts` lines 13-16: `recentMetrics` is
`metrics.slice(-14)`, `count = max(7, min(14, recentMetrics.length))`, and
the window is `recentMetrics.slice(-count)`. -/
def baselineWindow (metrics : List DailyMetrics) : List DailyMetrics :=
  let recentMetrics := takeLast 14 metrics
  let count := max 7 (min 14 recentMetrics.length)
  takeLast count recentMetrics

/-- The `Baseline` value built by `calculateBaseline` on a non-empty input
(`src/src/baselineCalculator.ts` lines 13-46): per-metric median over the
window, with the `?? 0` fallback for a metric with no present reading. -/
def baselineVal (metrics : List DailyMetrics) : Baseline :=
  let values := baselineWindow metrics
  { hrv := (median (presentSorted values .hrv)).getD 0
    sleep := (median (presentSorted values .sleep)).getD 0
    load := (median (presentSorted values .load)).getD 0 }

/-- `calculateBaseline` (`src/src/baselineCalculator.ts` lines 7-47):
throws `'No data available.'` on an empty input, otherwise returns the
per-metric median baseline. -/
def calculateBaseline (metrics : List DailyMetrics) : Except String Baseline :=
  if metrics.length = 0 then
    .error "No data available."
  else
    .ok (baselineVal metrics)

/-- `compareToBaseline` (`src/src/baselineCalculator.ts` lines 54-74):
`null` propagates; otherwise classify against
`baseline ± baseline * tolerancePercent / 100` with strict outer
inequalities.  The TypeScript default `tolerancePercent = 5` is passed
explicitly at every call site below. -/
def compareToBaseline : Option ℚ → ℚ → ℚ → Option MetricComparison
  | none, _, _ => none
  | some v, baseline, tolerancePercent =>
    let tolerance := baseline * (tolerancePercent / 100)
    let lowerBound := baseline - tolerance
    let upperBound := baseline + tolerance
    if v < lowerBound then some .lower
    else if v > upperBound then some .higher
    else some .within

/-- `src/src/decisionEngine.ts` lines 29-40: classify one day's three
readings against the baseline (with the default 5 % tolerance). -/
def compareAll (day : DailyMetrics) (baseline : Baseline) : ComparisonResult :=
  { hrv := compareToBaseline day.hrv baseline.hrv 5
    sleep := compareToBaseline day.sleep baseline.sleep 5
    load := compareToBaseline day.load baseline.load 5 }

/-- `metricsToCheck` (`src/src/decisionEngine.ts` line 44). -/
def metricsToCheck : List Metric := [.hrv, .sleep, .load]

/-- The metrics counted by the `consecutiveLower` filter
(`src/src/decisionEngine.ts` lines 47-53): non-null on both days and
`'lower'` on both days. -/
def consecutiveLowerMetrics (t y : ComparisonResult) : List Metric :=
  metricsToCheck.filter fun m =>
    decide (t.get m ≠ none ∧ y.get m ≠ none ∧
      t.get m = some .lower ∧ y.get m = some .lower)

/-- The metrics counted by the `consecutiveHigher` filter
(`src/src/decisionEngine.ts` lines 56-62). -/
def consecutiveHigherMetrics (t y : ComparisonResult) : List Metric :=
  metricsToCheck.filter fun m =>
    decide (t.get m ≠ none ∧ y.get m ≠ none ∧
      t.get m = some .higher ∧ y.get m = some .higher)

/-- `consecutiveLower` (`src/src/decisionEngine.ts` lines 47-53): the count
of metrics lower on both of the last two days. -/
def consecutiveLower (t y : ComparisonResult) : Nat :=
  (consecutiveLowerMetrics t y).length

/-- `consecutiveHigher` (`src/src/decisionEngine.ts` lines 56-62). -/
def consecutiveHigher (t y : ComparisonResult) : Nat :=
  (consecutiveHigherMetrics t y).length

/-- The result record of `determineDecisionPhase`
(`src/src/decisionEngine.ts` lines 16-19); the `comparison` field is the
spec's `verdicts`. -/
structure DecisionResult : Type where
  phase : DecisionPhase
  comparison : ComparisonResult
  reason : String
  deriving DecidableEq

/-- The reason template for direction `'lower'`
(`src/src/decisionEngine.ts` line 73). -/
def reasonLower (count : Nat) : String :=
  s!"{count} recovery signals have been outside baseline for 2 consecutive days."

/-- The reason template for direction `'higher'`
(`src/src/decisionEngine.ts` line 74). -/
def reasonHigher (count : Nat) : String :=
  s!"{count} load signals have been outside baseline for 2 consecutive days."

/-- The fixed `OBSERVE` reason (`src/src/decisionEngine.ts` line 86). -/
def reasonObserve : String := "Observing current state."

/-- The branch structure of `src/src/decisionEngine.ts` lines 64-87: decide
the phase and reason from the two consecutive-direction counts, returning
today's comparison triple in every case.  `'lower'` is checked first. -/
def decideFromCounts (consecutiveLower consecutiveHigher : Nat)
    (todayComparison : ComparisonResult) : DecisionResult :=
  if 2 ≤ consecutiveLower ∨ 2 ≤ consecutiveHigher then
    let direction : MetricComparison :=
      if 2 ≤ consecutiveLower then .lower else .higher
    let count : Nat :=
      if direction = .lower then consecutiveLower else consecutiveHigher
    let reason : String :=
      if direction = .lower then reasonLower count else reasonHigher count
    { phase := .CONSIDER_ADJUSTMENT, comparison := todayComparison, reason := reason }
  else
    { phase := .OBSERVE, comparison := todayComparison, reason := reasonObserve }

/-- The same branch structure with the two checks exchanged (`'higher'`
checked first), used to state that the check order is immaterial for the
counts that actually arise. -/
def decideFromCountsHigherFirst (consecutiveLower consecutiveHigher : Nat)
    (todayComparison : ComparisonResult) : DecisionResult :=
  if 2 ≤ consecutiveLower ∨ 2 ≤ consecutiveHigher then
    let direction : MetricComparison :=
      if 2 ≤ consecutiveHigher then .higher else .lower
    let count : Nat :=
      if direction = .lower then consecutiveLower else consecutiveHigher
    let reason : String :=
      if direction = .lower then reasonLower count else reasonHigher count
    { phase := .CONSIDER_ADJUSTMENT, comparison := todayComparison, reason := reason }
  else
    { phase := .OBSERVE, comparison := todayComparison, reason := reasonObserve }

/-- `metrics[metrics.length - 1]` (`src/src/decisionEngine.ts` line 25);
in-bounds whenever the length check has passed. -/
def todayOf (metrics : List DailyMetrics) : DailyMetrics :=
  metrics.getD (metrics.length - 1) default

/-- `metrics[metrics.length - 2]` (`src/src/decisionEngine.ts` line 26). -/
def yesterdayOf (metrics : List DailyMetrics) : DailyMetrics :=
  metrics.getD (metrics.length - 2) default

/-- `todayComparison` (`src/src/decisionEngine.ts` lines 29-33) as a
function of the input alone (the baseline is determined by the input). -/
def todayComparisonOf (metrics : List DailyMetrics) : ComparisonResult :=
  compareAll (todayOf metrics) (baselineVal metrics)

/-- `yesterdayComparison` (`src/src/decisionEngine.ts` lines 35-39). -/
def yesterdayComparisonOf (metrics : List DailyMetrics) : ComparisonResult :=
  compareAll (yesterdayOf metrics) (baselineVal metrics)

/-- The `consecutiveLower` count computed by the engine on a given input. -/
def clOf (metrics : List DailyMetrics) : Nat :=
  consecutiveLower (todayComparisonOf metrics) (yesterdayComparisonOf metrics)

/-- The `consecutiveHigher` count computed by the engine on a given input. -/
def chOf (metrics : List DailyMetrics) : Nat :=
  consecutiveHigher (todayComparisonOf metrics) (yesterdayComparisonOf metrics)

/-- `determineDecisionPhase` (`src/src/decisionEngine.ts` lines 13-87):
throws `'At least 2 days of data required.'` below 2 records, otherwise
computes the baseline over the full input, classifies the last two days,
counts the two-day same-direction metrics, and decides the phase. -/
def determineDecisionPhase (metrics : List DailyMetrics) :
    Except String DecisionResult :=
  if metrics.length < 2 then
    .error "At least 2 days of data required."
  else
    (calculateBaseline metrics).map fun baseline =>
      let todayComparison := compareAll (todayOf metrics) baseline
      let yesterdayComparison := compareAll (yesterdayOf metrics) baseline
      decideFromCounts
        (consecutiveLower todayComparison yesterdayComparison)
        (consecutiveHigher todayComparison yesterdayComparison)
        todayComparison

/-- `mockDailyMetrics` from `src/unnamed/part_001`: 14 days of mock data
(13 records). -/
def mockDailyMetrics : List DailyMetrics :=
  [ ⟨"2024-01-01", some 45, some 7.5, some 12.5⟩,
    ⟨"2024-01-02", some 48, some 8.0, some 14.2⟩,
    ⟨"2024-01-03", some 46, some 7.8, some 13.8⟩,
    ⟨"2024-01-04", some 50, some 8.2, some 11.5⟩,
    ⟨"2024-01-05", some 47, some 7.9, some 15.1⟩,
    ⟨"2024-01-06", some 49, some 8.1, some 13.2⟩,
    ⟨"2024-01-07", some 48, some 8.0, some 14.0⟩,
    ⟨"2024-01-08", some 46, some 7.7, some 12.8⟩,
    ⟨"2024-01-09", some 51, some 8.3, some 11.0⟩,
    ⟨"2024-01-10", some 47, some 7.6, some 14.5⟩,
    ⟨"2024-01-11", some 42, some 7.2, some 16.0⟩,
    ⟨"2024-01-12", some 40, some 7.0, some 16.5⟩,
    ⟨"2024-01-13", some 38, some 6.8, some 17.0⟩ ]

/-- Modelled from the spec §4.1 wording, for the refinement comparison of
the median rule: collect values, sort ascending, take the middle element
for an odd count, the arithmetic mean of the two central elements for an
even count, and `0` for an empty collection. -/
def specMedian (l : List ℚ) : ℚ :=
  let s := sortAsc l
  if s.length = 0 then 0
  else if s.length % 2 = 1 then s.getD (s.length / 2) 0
  else (s.getD (s.length / 2 - 1) 0 + s.getD (s.length / 2) 0) / 2

/-- The present (non-null) readings of one metric, in input order. -/
def presentValues (values : List DailyMetrics) (m : Metric) : List ℚ :=
  (values.map (fun d => d.get m)).filterMap id

/-! ### Helper lemmas -/

/-- The double slice of `calculateBaseline` selects the trailing
`min 14 N` records: the `max 7` clamp is a no-op. -/
theorem baselineWindow_eq (l : List DailyMetrics) :
    baselineWindow l = takeLast (min 14 l.length) l := by
  simp only [baselineWindow, takeLast, List.length_drop, List.drop_drop]
  congr 1
  omega

/-- On a non-empty input, `calculateBaseline` returns `baselineVal`. -/
theorem calculateBaseline_ok (metrics : List DailyMetrics)
    (h : metrics.length ≠ 0) :
    calculateBaseline metrics = .ok (baselineVal metrics) := by
  simp [calculateBaseline, h]

/-- With at least two records, `determineDecisionPhase` succeeds, and its
result is the count-based decision applied to the engine's own counts and
today's comparison triple. -/
theorem determineDecisionPhase_eq (metrics : List DailyMetrics)
    (h : 2 ≤ metrics.length) :
    determineDecisionPhase metrics
      = .ok (decideFromCounts (clOf metrics) (chOf metrics)
          (todayComparisonOf metrics)) := by
  unfold determineDecisionPhase
  rw [if_neg (by omega), calculateBaseline_ok metrics (by omega)]
  rfl

/-- Characterisation of the phase/reason branch of the engine. -/
theorem decideFromCounts_spec (cl ch : Nat) (tc : ComparisonResult) :
    ((decideFromCounts cl ch tc).phase = DecisionPhase.CONSIDER_ADJUSTMENT ↔
      2 ≤ cl ∨ 2 ≤ ch) ∧
    (2 ≤ cl → (decideFromCounts cl ch tc).reason = reasonLower cl) ∧
    (cl < 2 → 2 ≤ ch → (decideFromCounts cl ch tc).reason = reasonHigher ch) ∧
    (cl < 2 → ch < 2 → (decideFromCounts cl ch tc).phase = DecisionPhase.OBSERVE ∧
      (decideFromCounts cl ch tc).reason = reasonObserve) ∧
    (decideFromCounts cl ch tc).comparison = tc := by
  unfold decideFromCounts
  split_ifs with h h2 <;> simp_all

/-- Membership in the consecutive-lower filter is exactly: lower verdict on
both of the last two days.  The filter's explicit null checks are subsumed
by the equality checks. -/
theorem mem_consecutiveLowerMetrics (t y : ComparisonResult) (m : Metric) :
    m ∈ consecutiveLowerMetrics t y ↔
      t.get m = some MetricComparison.lower ∧
      y.get m = some MetricComparison.lower := by
  cases m <;>
    simp [consecutiveLowerMetrics, metricsToCheck, ComparisonResult.get] <;>
    aesop

/-- Membership in the consecutive-higher filter is exactly: higher verdict
on both of the last two days. -/
theorem mem_consecutiveHigherMetrics (t y : ComparisonResult) (m : Metric) :
    m ∈ consecutiveHigherMetrics t y ↔
      t.get m = some MetricComparison.higher ∧
      y.get m = some MetricComparison.higher := by
  cases m <;>
    simp [consecutiveHigherMetrics, metricsToCheck, ComparisonResult.get] <;>
    aesop

/-- Two pointwise-disjoint filters of one list have lengths summing to at
most the list's length. -/
theorem length_filter_disjoint_le {α : Type} (l : List α) (p q : α → Bool)
    (h : ∀ a, ¬(p a = true ∧ q a = true)) :
    (l.filter p).length + (l.filter q).length ≤ l.length := by
  induction l with
  | nil => simp
  | cons a l ih =>
    cases hp : p a <;> cases hq : q a
    · simp [List.filter_cons, hp, hq]
      omega
    · simp [List.filter_cons, hp, hq]
      omega
    · simp [List.filter_cons, hp, hq]
      omega
    · exact absurd ⟨hp, hq⟩ (h a)

/-- The two consecutive-direction counts sum to at most the number of
metrics (3): no metric is both lower-on-both-days and higher-on-both-days. -/
theorem counts_sum_le_three (t y : ComparisonResult) :
    consecutiveLower t y + consecutiveHigher t y ≤ 3 := by
  have h := length_filter_disjoint_le metricsToCheck
    (fun m => decide (t.get m ≠ none ∧ y.get m ≠ none ∧
      t.get m = some .lower ∧ y.get m = some .lower))
    (fun m => decide (t.get m ≠ none ∧ y.get m ≠ none ∧
      t.get m = some .higher ∧ y.get m = some .higher))
    (by
      intro m
      rintro ⟨h1, h2⟩
      simp only [decide_eq_true_eq] at h1 h2
      rw [h1.2.2.1] at h2
      exact absurd h2.2.2.1 (by simp))
  simpa [consecutiveLower, consecutiveHigher, consecutiveLowerMetrics,
    consecutiveHigherMetrics, metricsToCheck] using h

/-- When the two counts do not both reach 2, exchanging the two threshold
checks does not change the decision. -/
theorem decideFromCounts_order_irrelevant (cl ch : Nat) (tc : ComparisonResult)
    (h : ¬(2 ≤ cl ∧ 2 ≤ ch)) :
    decideFromCounts cl ch tc = decideFromCountsHigherFirst cl ch tc := by
  unfold decideFromCounts decideFromCountsHigherFirst
  split_ifs with h1 h2 h3 <;> simp_all

/-- The classifier answers `lower` exactly below the lower bound
(no tolerance-sign assumption needed for this direction). -/
theorem compareToBaseline_lower_iff (b p x : ℚ) :
    compareToBaseline (some x) b p = some MetricComparison.lower ↔
      x < b - b * (p / 100) := by
  simp only [compareToBaseline]
  split_ifs with h1 h2 <;> simp_all

/-- The classifier answers `within` exactly on the closed band between the
two bounds. -/
theorem compareToBaseline_within_iff (b p x : ℚ) :
    compareToBaseline (some x) b p = some MetricComparison.within ↔
      b - b * (p / 100) ≤ x ∧ x ≤ b + b * (p / 100) := by
  simp only [compareToBaseline]
  split_ifs with h1 h2 <;> simp_all <;> intro h <;> linarith

/-- With a nonnegative tolerance, the classifier answers `higher` exactly
above the upper bound. -/
theorem compareToBaseline_higher_iff (b p x : ℚ) (ht : 0 ≤ b * (p / 100)) :
    compareToBaseline (some x) b p = some MetricComparison.higher ↔
      b + b * (p / 100) < x := by
  simp only [compareToBaseline]
  split_ifs with h1 h2 <;> simp_all <;> linarith

/-- `(median s).getD 0` written as one total conditional expression. -/
theorem medianD_eq (s : List ℚ) :
    (median s).getD 0 =
      if s.length = 0 then 0
      else if s.length % 2 = 1 then s.getD (s.length / 2) 0
      else (s.getD (s.length / 2 - 1) 0 + s.getD (s.length / 2) 0) / 2 := by
  simp only [median]
  split_ifs <;> simp_all <;> omega

/-- The spec-worded median agrees with the code's `median ?? 0` applied to
the sorted list. -/
theorem specMedian_eq (l : List ℚ) :
    specMedian l = (median (sortAsc l)).getD 0 := by
  rw [medianD_eq]
  rfl

/-! ### The claims -/

/-- C1: for every input of at least 2 records the engine succeeds, the
phase is `CONSIDER_ADJUSTMENT` exactly when the consecutive-lower or the
consecutive-higher count reaches 2; with consecutive-lower ≥ 2 the reason
is the lower template at the lower count, with only consecutive-higher ≥ 2
the higher template at the higher count; otherwise the phase is `OBSERVE`
with reason `"Observing current state."`; and the returned verdicts are
always today's classification triple. -/
theorem claim_C1_phase_reason_verdicts (metrics : List DailyMetrics)
    (h : 2 ≤ metrics.length) :
    ∃ r, determineDecisionPhase metrics = Except.ok r ∧
      (r.phase = DecisionPhase.CONSIDER_ADJUSTMENT ↔
        2 ≤ clOf metrics ∨ 2 ≤ chOf metrics) ∧
      (2 ≤ clOf metrics → r.reason = reasonLower (clOf metrics)) ∧
      (clOf metrics < 2 → 2 ≤ chOf metrics →
        r.reason = reasonHigher (chOf metrics)) ∧
      (clOf metrics < 2 → chOf metrics < 2 →
        r.phase = DecisionPhase.OBSERVE ∧
        r.reason = "Observing current state.") ∧
      r.comparison = todayComparisonOf metrics :=
  ⟨_, determineDecisionPhase_eq metrics h,
    decideFromCounts_spec (clOf metrics) (chOf metrics) (todayComparisonOf metrics)⟩

/-- Witness for C1 at the repository's mock data. -/
theorem claim_C1_witness :
    2 ≤ mockDailyMetrics.length ∧
    (∃ r, determineDecisionPhase mockDailyMetrics = Except.ok r ∧
      (r.phase = DecisionPhase.CONSIDER_ADJUSTMENT ↔
        2 ≤ clOf mockDailyMetrics ∨ 2 ≤ chOf mockDailyMetrics) ∧
      (2 ≤ clOf mockDailyMetrics →
        r.reason = reasonLower (clOf mockDailyMetrics)) ∧
      (clOf mockDailyMetrics < 2 → 2 ≤ chOf mockDailyMetrics →
        r.reason = reasonHigher (chOf mockDailyMetrics)) ∧
      (clOf mockDailyMetrics < 2 → chOf mockDailyMetrics < 2 →
        r.phase = DecisionPhase.OBSERVE ∧
        r.reason = "Observing current state.") ∧
      r.comparison = todayComparisonOf mockDailyMetrics) :=
  ⟨by decide, claim_C1_phase_reason_verdicts mockDailyMetrics (by decide)⟩

/-- C2: a metric is counted toward consecutive-lower iff its verdicts for
today and yesterday (against the baseline of the full input) are both
present and both `lower`, symmetrically for consecutive-higher, and a
metric with an absent verdict on either day contributes to neither count. -/
theorem claim_C2_trend_counting (metrics : List DailyMetrics)
    (h : 2 ≤ metrics.length) (m : Metric) :
    (m ∈ consecutiveLowerMetrics (todayComparisonOf metrics)
        (yesterdayComparisonOf metrics) ↔
      (todayComparisonOf metrics).get m = some MetricComparison.lower ∧
      (yesterdayComparisonOf metrics).get m = some MetricComparison.lower) ∧
    (m ∈ consecutiveHigherMetrics (todayComparisonOf metrics)
        (yesterdayComparisonOf metrics) ↔
      (todayComparisonOf metrics).get m = some MetricComparison.higher ∧
      (yesterdayComparisonOf metrics).get m = some MetricComparison.higher) ∧
    ((todayComparisonOf metrics).get m = none ∨
        (yesterdayComparisonOf metrics).get m = none →
      m ∉ consecutiveLowerMetrics (todayComparisonOf metrics)
        (yesterdayComparisonOf metrics) ∧
      m ∉ consecutiveHigherMetrics (todayComparisonOf metrics)
        (yesterdayComparisonOf metrics)) := by
  refine ⟨mem_consecutiveLowerMetrics _ _ m,
    mem_consecutiveHigherMetrics _ _ m, ?_⟩
  intro habs
  rw [mem_consecutiveLowerMetrics, mem_consecutiveHigherMetrics]
  rcases habs with h1 | h1 <;> simp [h1]

/-- Witness for C2 at the mock data and the `hrv` metric. -/
theorem claim_C2_witness :
    2 ≤ mockDailyMetrics.length ∧
    ((Metric.hrv ∈ consecutiveLowerMetrics (todayComparisonOf mockDailyMetrics)
        (yesterdayComparisonOf mockDailyMetrics) ↔
      (todayComparisonOf mockDailyMetrics).get Metric.hrv
        = some MetricComparison.lower ∧
      (yesterdayComparisonOf mockDailyMetrics).get Metric.hrv
        = some MetricComparison.lower) ∧
    (Metric.hrv ∈ consecutiveHigherMetrics (todayComparisonOf mockDailyMetrics)
        (yesterdayComparisonOf mockDailyMetrics) ↔
      (todayComparisonOf mockDailyMetrics).get Metric.hrv
        = some MetricComparison.higher ∧
      (yesterdayComparisonOf mockDailyMetrics).get Metric.hrv
        = some MetricComparison.higher) ∧
    ((todayComparisonOf mockDailyMetrics).get Metric.hrv = none ∨
        (yesterdayComparisonOf mockDailyMetrics).get Metric.hrv = none →
      Metric.hrv ∉ consecutiveLowerMetrics (todayComparisonOf mockDailyMetrics)
        (yesterdayComparisonOf mockDailyMetrics) ∧
      Metric.hrv ∉ consecutiveHigherMetrics (todayComparisonOf mockDailyMetrics)
        (yesterdayComparisonOf mockDailyMetrics))) :=
  ⟨by decide, claim_C2_trend_counting mockDailyMetrics (by decide) Metric.hrv⟩

/-- C3 counterexample: with baseline 1 and tolerance percent −100 the
tolerance is negative, and the lower boundary value `b − t` classifies as
`higher`, not `within`, refuting the claim's unrestricted quantification
over the tolerance percent. -/
theorem claim_C3_counterexample :
    compareToBaseline (some (1 - 1 * ((-100 : ℚ) / 100))) 1 (-100)
      = some MetricComparison.higher := by
  norm_num [compareToBaseline]

/-- C3 (amended): under a nonnegative tolerance `b * (p / 100)` — which
holds in particular for the default `p = 5` and the engine's nonnegative
baselines — the classifier returns absent exactly on absent input, `lower`
iff strictly below `b − t`, `higher` iff strictly above `b + t`, `within`
on the closed band, and both boundary values classify as `within`. -/
theorem claim_C3_classifier (v : Option ℚ) (b p : ℚ)
    (ht : 0 ≤ b * (p / 100)) :
    (compareToBaseline v b p = none ↔ v = none) ∧
    (∀ x : ℚ,
      (compareToBaseline (some x) b p = some MetricComparison.lower ↔
        x < b - b * (p / 100)) ∧
      (compareToBaseline (some x) b p = some MetricComparison.higher ↔
        b + b * (p / 100) < x) ∧
      (compareToBaseline (some x) b p = some MetricComparison.within ↔
        b - b * (p / 100) ≤ x ∧ x ≤ b + b * (p / 100))) ∧
    compareToBaseline (some (b - b * (p / 100))) b p
      = some MetricComparison.within ∧
    compareToBaseline (some (b + b * (p / 100))) b p
      = some MetricComparison.within := by
  refine ⟨?_, fun x => ⟨compareToBaseline_lower_iff b p x,
    compareToBaseline_higher_iff b p x ht,
    compareToBaseline_within_iff b p x⟩, ?_, ?_⟩
  · cases v with
    | none => simp [compareToBaseline]
    | some x =>
      simp only [compareToBaseline]
      split_ifs <;> simp
  · rw [compareToBaseline_within_iff]
    constructor <;> linarith
  · rw [compareToBaseline_within_iff]
    constructor <;> linarith

/-- Witness for the amended C3 at the default tolerance 5 and baseline 47. -/
theorem claim_C3_witness :
    (0 : ℚ) ≤ 47 * (5 / 100) ∧
    ((compareToBaseline (some 38) 47 5 = none ↔ (some (38 : ℚ)) = none) ∧
    (∀ x : ℚ,
      (compareToBaseline (some x) 47 5 = some MetricComparison.lower ↔
        x < 47 - 47 * (5 / 100)) ∧
      (compareToBaseline (some x) 47 5 = some MetricComparison.higher ↔
        47 + 47 * (5 / 100) < x) ∧
      (compareToBaseline (some x) 47 5 = some MetricComparison.within ↔
        47 - 47 * (5 / 100) ≤ x ∧ x ≤ 47 + 47 * (5 / 100))) ∧
    compareToBaseline (some (47 - 47 * (5 / 100))) 47 5
      = some MetricComparison.within ∧
    compareToBaseline (some (47 + 47 * (5 / 100))) 47 5
      = some MetricComparison.within) :=
  ⟨by norm_num, claim_C3_classifier (some 38) 47 5 (by norm_num)⟩

/-- C4: on a non-empty input, each metric's baseline equals the spec-worded
statistical median of that metric's present readings over the trailing
`min 14 N` window (0 when no readings are present). -/
theorem claim_C4_median (metrics : List DailyMetrics) (h : metrics ≠ [])
    (m : Metric) :
    ∃ b, calculateBaseline metrics = Except.ok b ∧
      b.get m = specMedian
        (presentValues (takeLast (min 14 metrics.length) metrics) m) := by
  refine ⟨baselineVal metrics, ?_, ?_⟩
  · simp [calculateBaseline, h]
  · cases m <;>
      simp [baselineVal, Baseline.get, baselineWindow_eq, specMedian_eq,
        presentSorted, presentValues]

/-- Witness for C4 on a one-record input with no present readings (the
zero-fallback case). -/
theorem claim_C4_witness :
    ([(⟨"", none, none, none⟩ : DailyMetrics)] ≠ []) ∧
    (∃ b, calculateBaseline [(⟨"", none, none, none⟩ : DailyMetrics)]
        = Except.ok b ∧
      b.get Metric.hrv = specMedian
        (presentValues (takeLast
          (min 14 ([(⟨"", none, none, none⟩ : DailyMetrics)]).length)
          [(⟨"", none, none, none⟩ : DailyMetrics)]) Metric.hrv)) :=
  ⟨List.cons_ne_nil _ _,
    claim_C4_median [⟨"", none, none, none⟩] (List.cons_ne_nil _ _) Metric.hrv⟩

/-- C5: the window the baseline is computed over is exactly the trailing
`min 14 N` records; the additional lower clamp to 7 selects the same
records, i.e. it is a no-op. -/
theorem claim_C5_window_noop (metrics : List DailyMetrics)
    (h : metrics ≠ []) :
    baselineWindow metrics = takeLast (min 14 metrics.length) metrics :=
  baselineWindow_eq metrics

/-- Witness for C5 on a concrete one-record input. -/
theorem claim_C5_witness :
    ([(⟨"", none, none, none⟩ : DailyMetrics)] ≠ []) ∧
    baselineWindow [(⟨"", none, none, none⟩ : DailyMetrics)]
      = takeLast (min 14 ([(⟨"", none, none, none⟩ : DailyMetrics)]).length)
          [(⟨"", none, none, none⟩ : DailyMetrics)] :=
  ⟨List.cons_ne_nil _ _,
    claim_C5_window_noop [⟨"", none, none, none⟩] (List.cons_ne_nil _ _)⟩

/-- C6: on the repository's 13-record mock data the baseline is
`{hrv 47, sleep 7.8, load 14}`, today and yesterday both classify as
`(lower, lower, higher)`, the consecutive-lower count is 2, and the engine
returns `CONSIDER_ADJUSTMENT` with the 2-recovery-signals reason. -/
theorem claim_C6_mock_scenario :
    calculateBaseline mockDailyMetrics = Except.ok ⟨47, 7.8, 14⟩ ∧
    todayComparisonOf mockDailyMetrics
      = ⟨some .lower, some .lower, some .higher⟩ ∧
    yesterdayComparisonOf mockDailyMetrics
      = ⟨some .lower, some .lower, some .higher⟩ ∧
    clOf mockDailyMetrics = 2 ∧
    determineDecisionPhase mockDailyMetrics
      = Except.ok ⟨.CONSIDER_ADJUSTMENT, ⟨some .lower, some .lower, some .higher⟩,
          "2 recovery signals have been outside baseline for 2 consecutive days."⟩ := by
  refine ⟨?_, ?_, ?_, ?_, ?_⟩
  · norm_num [calculateBaseline, baselineVal, baselineWindow, takeLast,
      presentSorted, sortAsc, insertSorted, median, mockDailyMetrics,
      DailyMetrics.get]
  · norm_num [todayComparisonOf, baselineVal, baselineWindow, takeLast,
      presentSorted, sortAsc, insertSorted, median, mockDailyMetrics,
      DailyMetrics.get, compareAll, compareToBaseline, todayOf]
  · norm_num [yesterdayComparisonOf, baselineVal, baselineWindow, takeLast,
      presentSorted, sortAsc, insertSorted, median, mockDailyMetrics,
      DailyMetrics.get, compareAll, compareToBaseline, yesterdayOf]
  · norm_num [clOf, todayComparisonOf, yesterdayComparisonOf, baselineVal,
      baselineWindow, takeLast, presentSorted, sortAsc, insertSorted, median,
      mockDailyMetrics, DailyMetrics.get, compareAll, compareToBaseline,
      todayOf, yesterdayOf, consecutiveLower, consecutiveLowerMetrics,
      metricsToCheck, ComparisonResult.get]
    decide
  · norm_num [determineDecisionPhase, calculateBaseline, baselineVal,
      baselineWindow, takeLast, presentSorted, sortAsc, insertSorted, median,
      mockDailyMetrics, DailyMetrics.get, compareAll, compareToBaseline,
      todayOf, yesterdayOf, consecutiveLower, consecutiveHigher,
      consecutiveLowerMetrics, consecutiveHigherMetrics, metricsToCheck,
      ComparisonResult.get, Except.map]
    decide

/-- C7: in the phase/reason branch of the engine, whenever both counts
reach 2 the result is `CONSIDER_ADJUSTMENT` with the lower-direction
reason: `lower` is checked first and takes fixed precedence.  (On full
inputs the two counts can never both reach 2 — see the C10 theorem — so
the precedence is stated on the branch over the raw counts.) -/
theorem claim_C7_tiebreak_lower (cl ch : Nat) (tc : ComparisonResult)
    (hl : 2 ≤ cl) (hh : 2 ≤ ch) :
    (decideFromCounts cl ch tc).phase = DecisionPhase.CONSIDER_ADJUSTMENT ∧
    (decideFromCounts cl ch tc).reason = reasonLower cl := by
  unfold decideFromCounts
  rw [if_pos (Or.inl hl)]
  simp [hl]

/-- Witness for C7 at counts 2 and 2. -/
theorem claim_C7_witness :
    2 ≤ 2 ∧ 2 ≤ 2 ∧
    ((decideFromCounts 2 2 ⟨none, none, none⟩).phase
        = DecisionPhase.CONSIDER_ADJUSTMENT ∧
      (decideFromCounts 2 2 ⟨none, none, none⟩).reason = reasonLower 2) :=
  ⟨by decide, by decide,
    claim_C7_tiebreak_lower 2 2 ⟨none, none, none⟩ (by decide) (by decide)⟩

/-- C8: `calculateBaseline` fails — with exactly the empty-dataset message —
iff the input is empty, `determineDecisionPhase` fails — with exactly the
insufficient-history message — iff the input has fewer than 2 records, and
an input of exactly 2 records succeeds. -/
theorem claim_C8_error_conditions (metrics : List DailyMetrics) :
    (calculateBaseline metrics = Except.error "No data available." ↔
      metrics.length = 0) ∧
    ((∃ b, calculateBaseline metrics = Except.ok b) ↔ metrics.length ≠ 0) ∧
    (determineDecisionPhase metrics
        = Except.error "At least 2 days of data required." ↔
      metrics.length < 2) ∧
    ((∃ r, determineDecisionPhase metrics = Except.ok r) ↔
      2 ≤ metrics.length) ∧
    (metrics.length = 2 → ∃ r, determineDecisionPhase metrics = Except.ok r) := by
  by_cases h0 : metrics.length = 0 <;> by_cases h2 : metrics.length < 2 <;>
    simp [calculateBaseline, determineDecisionPhase, h0, h2, Except.map] <;>
    omega

/-- C9 counterexample: against a zero baseline the non-null reading 0 is a
reading of the metric, and it classifies as `within`, not `higher`. -/
theorem claim_C9_counterexample :
    compareToBaseline (some 0) 0 5 = some MetricComparison.within := by
  norm_num [compareToBaseline]

/-- C9 (amended): against a zero baseline with the default 5 % tolerance,
every non-null positive reading classifies as strictly `higher` (the
tolerance band collapses to the single point 0, where the verdict is
`within`). -/
theorem claim_C9_zero_baseline (x : ℚ) (hx : 0 < x) :
    compareToBaseline (some x) 0 5 = some MetricComparison.higher := by
  simp only [compareToBaseline]
  split_ifs with h1 h2 <;> simp_all <;> linarith

/-- Witness for the amended C9 at the reading 1. -/
theorem claim_C9_witness :
    (0 : ℚ) < 1 ∧
    compareToBaseline (some 1) 0 5 = some MetricComparison.higher :=
  ⟨by norm_num, claim_C9_zero_baseline 1 (by norm_num)⟩

/-- C10: the consecutive-lower and consecutive-higher metric sets are
disjoint, so the two counts sum to at most 3, can never both reach 2, and
the decision does not depend on which threshold is checked first. -/
theorem claim_C10_no_tie (t y : ComparisonResult) :
    consecutiveLower t y + consecutiveHigher t y ≤ 3 ∧
    ¬(2 ≤ consecutiveLower t y ∧ 2 ≤ consecutiveHigher t y) ∧
    (∀ m : Metric, ¬(m ∈ consecutiveLowerMetrics t y ∧
      m ∈ consecutiveHigherMetrics t y)) ∧
    decideFromCounts (consecutiveLower t y) (consecutiveHigher t y) t
      = decideFromCountsHigherFirst (consecutiveLower t y)
          (consecutiveHigher t y) t := by
  have h3 := counts_sum_le_three t y
  refine ⟨h3, by omega, ?_,
    decideFromCounts_order_irrelevant _ _ _ (by omega)⟩
  intro m
  rintro ⟨h1, h2⟩
  rw [mem_consecutiveLowerMetrics] at h1
  rw [mem_consecutiveHigherMetrics] at h2
  rw [h1.1] at h2
  exact absurd h2.1 (by simp)

end P360
